import Mathlib

/-!
Verification of the device-provisioning deployment workflow in
src/jobs/provision_device.py (class ProvisionDevice).

The embedding models the run method, the helpers _validate_device,
_get_credentials, and the deployment routine _deploy_config (lines 298-415).
Transport behaviour (the napalm driver object) is a parameter: each adapter
operation either succeeds or raises an exception of one of the kinds the
Python except clauses distinguish.  The model records the sequence of
transport calls made (the trace) and which terminal branch of the Python
code the attempt ended in (the outcome).
-/

namespace ProvisionJob

/-- Exception kinds as distinguished by the except clauses of _deploy_config:
connEx models napalm ConnectionException (caught at line 383), commitEx models
CommitError or ReplaceConfigException (caught together at line 393), otherEx
models any other Exception (caught by the catch-all at line 397). -/
inductive Exc
  | connEx
  | commitEx
  | otherEx
  deriving DecidableEq

/-- Transport-adapter calls observable during one deployment attempt. -/
inductive Event
  | openEv
  | stageEv
  | diffEv
  | commitEv
  | factsEv
  | discardEv
  | closeEv
  deriving DecidableEq

/-- Behaviour of one deployment attempt's transport stack.  Each field says
whether the corresponding call raises (some e) or succeeds (none).
setupExc covers get_network_driver and the driver constructor (lines 320-326),
which run before napalm_device is assigned; openEv is napalm_device.open()
(line 329); stageExc covers load_replace_candidate / load_merge_candidate
(lines 335-340); diffText is the value compare_config returns when diffExc is
none (line 346); discardExc is the behaviour of discard_config at whichever
site it is called; commitExc is commit_config (line 368); factsExc is
get_facts (line 375); closeExc is close (line 412, whose failure is only
logged and affects nothing observable here). -/
structure Adapter where
  setupExc : Option Exc
  openExc : Option Exc
  stageExc : Option Exc
  diffExc : Option Exc
  diffText : String
  discardExc : Option Exc
  commitExc : Option Exc
  factsExc : Option Exc
  closeExc : Option Exc
  deriving DecidableEq

/-- The flags of one deployment request: dry_run, replace_config and
commit_changes as passed to _deploy_config.  The candidate configuration text
itself is only handed to the stage call and never branches the control flow,
so it is not carried here. -/
structure Request where
  dryRun : Bool
  replaceMode : Bool
  commitChanges : Bool
  deriving DecidableEq

/-- Terminal branch of _deploy_config.  The first four constructors are the
normal completions of the try block (empty-diff early return at line 356,
dry-run discard at line 361, successful commit plus facts at lines 368-378,
commit-disabled discard at line 381); the last three are the three except
clauses (lines 383, 393, 397). -/
inductive Outcome
  | noopNoDiff
  | dryRunDiscardedOut (diffText : String)
  | discardedOut (diffText : String)
  | committedOut (diffText : String)
  | connFailedOut
  | commitFailedOut
  | unexpectedFailedOut
  deriving DecidableEq

/-- How the try block of _deploy_config ended: normally with an outcome, or
with an exception about to be dispatched to the except clauses. -/
inductive BodyExit
  | done (o : Outcome)
  | raised (e : Exc)
  deriving DecidableEq

/-- The try block of _deploy_config (lines 318-381): the sequence of transport
calls it performs and how it exits, as a function of the adapter behaviour and
the request flags.  Mirrors the Python control flow: open, stage (replace or
merge), compare_config; empty diff short-circuits into discard and return;
otherwise dry_run discards, commit_changes commits then queries facts, and
commit disabled discards. -/
def deployBody (a : Adapter) (r : Request) : List Event × BodyExit :=
  match a.setupExc with
  | some e => ([], .raised e)
  | none =>
    match a.openExc with
    | some e => ([.openEv], .raised e)
    | none =>
      match a.stageExc with
      | some e => ([.openEv, .stageEv], .raised e)
      | none =>
        match a.diffExc with
        | some e => ([.openEv, .stageEv, .diffEv], .raised e)
        | none =>
          if a.diffText = "" then
            match a.discardExc with
            | some e => ([.openEv, .stageEv, .diffEv, .discardEv], .raised e)
            | none => ([.openEv, .stageEv, .diffEv, .discardEv], .done .noopNoDiff)
          else if r.dryRun then
            match a.discardExc with
            | some e => ([.openEv, .stageEv, .diffEv, .discardEv], .raised e)
            | none =>
              ([.openEv, .stageEv, .diffEv, .discardEv],
                .done (.dryRunDiscardedOut a.diffText))
          else if r.commitChanges then
            match a.commitExc with
            | some e => ([.openEv, .stageEv, .diffEv, .commitEv], .raised e)
            | none =>
              match a.factsExc with
              | some e =>
                ([.openEv, .stageEv, .diffEv, .commitEv, .factsEv], .raised e)
              | none =>
                ([.openEv, .stageEv, .diffEv, .commitEv, .factsEv],
                  .done (.committedOut a.diffText))
          else
            match a.discardExc with
            | some e => ([.openEv, .stageEv, .diffEv, .discardEv], .raised e)
            | none =>
              ([.openEv, .stageEv, .diffEv, .discardEv],
                .done (.discardedOut a.diffText))

/-- The except clauses of _deploy_config (lines 383-407): given whether
napalm_device was assigned (hasHandle) and how the try block exited, the
extra transport calls the handlers make and the terminal branch.  The
catch-all clause (line 397) attempts discard_config when napalm_device is
set, its own failure being swallowed at line 406. -/
def handlePart (hasHandle : Bool) : BodyExit → List Event × Outcome
  | .done o => ([], o)
  | .raised .connEx => ([], .connFailedOut)
  | .raised .commitEx => ([], .commitFailedOut)
  | .raised .otherEx => (if hasHandle then [.discardEv] else [], .unexpectedFailedOut)

/-- Result of one invocation of _deploy_config: the transport calls made and
the terminal branch taken. -/
structure DeployResult where
  trace : List Event
  outcome : Outcome
  deriving DecidableEq

/-- The try / except / finally of _deploy_config (lines 317-415).
napalm_device is assigned as soon as the driver constructor returns
(line 321), before open() is called, so the finally block (lines 409-415)
attempts close() whenever setupExc is none - even when open() itself raised.
A close failure is caught and logged at line 414 and changes nothing
observable, so the close attempt is recorded in the trace unconditionally. -/
def deployCore (a : Adapter) (r : Request) : DeployResult :=
  let b := deployBody a r
  let h := handlePart a.setupExc.isNone b.2
  { trace := b.1 ++ h.1 ++ (if a.setupExc.isNone then [Event.closeEv] else [])
    outcome := h.2 }

/-- Result statuses from the specification's DeploymentResult.  The code
returns nothing; each terminal branch of _deploy_config is mapped to the
status the specification assigns to that branch. -/
inductive Status
  | committedSt
  | discardedSt
  | dryRunDiscardedSt
  | noOpNoDiffSt
  | rolledBackSt
  | failedSt
  deriving DecidableEq

/-- Map each terminal branch of _deploy_config to its specification status.
All three except clauses are failure reports (they log errors and return
normally), hence failedSt.  No branch of the code ever signals rolledBackSt:
the code merely logs a rollback claim at line 395 while reporting failure. -/
def statusOf : Outcome → Status
  | .noopNoDiff => .noOpNoDiffSt
  | .dryRunDiscardedOut _ => .dryRunDiscardedSt
  | .discardedOut _ => .discardedSt
  | .committedOut _ => .committedSt
  | .connFailedOut => .failedSt
  | .commitFailedOut => .failedSt
  | .unexpectedFailedOut => .failedSt

/-- The whole of _deploy_config as seen by its caller.  The parsing of
platform.napalm_args (lines 312-315, json.loads when the stored value is a
string) runs before the try block: when it raises, the exception escapes
_deploy_config.  Every exception raised inside the try block is consumed by
the except clauses, so in that case the routine returns normally. -/
def deployConfig (argsMalformed : Bool) (a : Adapter) (r : Request) :
    Except Exc DeployResult :=
  if argsMalformed then .error .otherEx
  else .ok (deployCore a r)

/-- Outcome of one get_secret_value call for one field: the call raises, or
returns a string (possibly empty). -/
inductive Fetch
  | raises
  | value (s : String)
  deriving DecidableEq

/-- The secret-store situation of a device: whether device.secrets_group is
set, and how the store behaves for the username and password fields. -/
structure SecretsSetup where
  hasGroup : Bool
  userFetch : Fetch
  passFetch : Fetch
  deriving DecidableEq

/-- The pair _get_credentials produces, together with the provenance flag the
code computes at line 189 (username_from_secrets or password_from_secrets). -/
structure Credentials where
  username : String
  password : String
  fromSecretStore : Bool
  deriving DecidableEq

/-- One field of _get_credentials (lines 152-186): a raised exception or an
empty string falls back to the default value admin with the from-secrets flag
false; a non-empty value is kept with the flag true. -/
def fetchField (f : Fetch) : String × Bool :=
  match f with
  | .value v => if v = "" then ("admin", false) else (v, true)
  | .raises => ("admin", false)

/-- _get_credentials (lines 138-225): defaults admin / admin, each field
resolved independently from the secrets group when one is configured, and the
pair tagged as coming from the secret store when at least one field did. -/
def getCredentials (s : SecretsSetup) : Credentials :=
  if s.hasGroup then
    let u := fetchField s.userFetch
    let p := fetchField s.passFetch
    { username := u.1, password := p.1, fromSecretStore := u.2 || p.2 }
  else
    { username := "admin", password := "admin", fromSecretStore := false }

/-- The device attributes the run method consults: the three fields
_validate_device checks (lines 116-136), the secrets situation, and whether
platform.napalm_args is a string that json.loads rejects (lines 312-315). -/
structure DeviceModel where
  hasPlatform : Bool
  hasNapalmDriver : Bool
  hasPrimaryIp4 : Bool
  secrets : SecretsSetup
  napalmArgsMalformed : Bool
  deriving DecidableEq

/-- _validate_device (lines 116-136): platform, napalm driver and primary
IPv4 address must all be present. -/
def validateDevice (d : DeviceModel) : Bool :=
  d.hasPlatform && d.hasNapalmDriver && d.hasPrimaryIp4

/-- Python truthiness test of the intended configuration at line 87:
if not intended_config - true when _get_intended_config returned None or the
empty string. -/
def configFalsy : Option String → Bool
  | none => true
  | some s => s == ""

/-- Terminal branch of the run method.  invalidDevice: early return at
line 80; configUnavailableError: the early return at lines 87-89 after
logger.error about the missing intended configuration; completed: line 103,
logger.success announcing that provisioning completed; raisedToCaller: an
exception escaping run - which would suppress the completion message.
noChangeRequested is vocabulary modelled from the spec only: the status the
specification assigns to an empty candidate configuration; no branch of the
code produces it. -/
inductive RunStatus
  | invalidDevice
  | configUnavailableError
  | noChangeRequested
  | completed
  | raisedToCaller (e : Exc)
  deriving DecidableEq

/-- Result of the run method: which branch it ended in and the transport
calls made on its behalf (empty when _deploy_config was never reached or
raised before touching the transport). -/
structure RunResult where
  status : RunStatus
  transportTrace : List Event
  deriving DecidableEq

/-- The run method (lines 69-104): validate the device, resolve credentials
(never fails), stop with an error when the intended configuration is missing
or empty, otherwise deploy and finish with the completion success message.
An exception escaping _deploy_config would escape run as well. -/
def runJob (d : DeviceModel) (cfg : Option String) (a : Adapter) (r : Request) :
    RunResult :=
  if validateDevice d then
    let _creds := getCredentials d.secrets
    if configFalsy cfg then
      { status := .configUnavailableError, transportTrace := [] }
    else
      match deployConfig d.napalmArgsMalformed a r with
      | .error e => { status := .raisedToCaller e, transportTrace := [] }
      | .ok dres => { status := .completed, transportTrace := dres.trace }
  else
    { status := .invalidDevice, transportTrace := [] }

/-- The except clauses never call close: the only transport call a handler
makes is the best-effort discard of the catch-all clause. -/
theorem closeEv_not_mem_handlePart (hh : Bool) (ex : BodyExit) :
    Event.closeEv ∉ (handlePart hh ex).1 := by
  rcases ex with o | e
  · simp [handlePart]
  · cases e <;> cases hh <;> simp [handlePart]

/-- The except clauses never call commit. -/
theorem commitEv_not_mem_handlePart (hh : Bool) (ex : BodyExit) :
    Event.commitEv ∉ (handlePart hh ex).1 := by
  rcases ex with o | e
  · simp [handlePart]
  · cases e <;> cases hh <;> simp [handlePart]

/-- The except clauses never call open. -/
theorem openEv_not_mem_handlePart (hh : Bool) (ex : BodyExit) :
    Event.openEv ∉ (handlePart hh ex).1 := by
  rcases ex with o | e
  · simp [handlePart]
  · cases e <;> cases hh <;> simp [handlePart]

/-- The try block never calls close: close happens only in the finally
block. -/
theorem closeEv_not_mem_deployBody (a : Adapter) (r : Request) :
    Event.closeEv ∉ (deployBody a r).1 := by
  unfold deployBody
  repeat' split
  all_goals simp

/-- When get_network_driver or the driver constructor raises, the try block
performs no transport call at all. -/
theorem deployBody_setup_some (a : Adapter) (r : Request) (e : Exc)
    (h : a.setupExc = some e) : deployBody a r = ([], .raised e) := by
  unfold deployBody
  rw [h]

/-- A transport open call in the trace means napalm_device was assigned,
hence the driver setup succeeded. -/
theorem setup_none_of_openEv_mem (a : Adapter) (r : Request)
    (h : Event.openEv ∈ (deployCore a r).trace) : a.setupExc = none := by
  cases hs : a.setupExc with
  | none => rfl
  | some e =>
    exfalso
    have hb := deployBody_setup_some a r e hs
    unfold deployCore at h
    rw [hb] at h
    simp [hs] at h
    exact openEv_not_mem_handlePart _ _ h

/-- Claim C2: every deployment attempt that reaches the Connecting state or
beyond (open was called on the transport) attempts close exactly once, on
every exit path.  The finally block at lines 409-415 runs on each exit of
_deploy_config and is the only place close is called; its guard
(napalm_device is set) holds whenever open was called. -/
theorem c2_close_called_exactly_once (a : Adapter) (r : Request)
    (h : Event.openEv ∈ (deployCore a r).trace) :
    ((deployCore a r).trace).count Event.closeEv = 1 := by
  have hs : a.setupExc = none := setup_none_of_openEv_mem a r h
  unfold deployCore
  rw [List.count_append, List.count_append,
    List.count_eq_zero.mpr (closeEv_not_mem_deployBody a r),
    List.count_eq_zero.mpr (closeEv_not_mem_handlePart _ _)]
  simp [hs]

/-- Claim C2 witness: a concrete attempt (dry run over a non-empty diff with
a fully successful transport) reaches Connecting and attempts close exactly
once. -/
theorem c2_witness :
    Event.openEv ∈ (deployCore ⟨none, none, none, none, "+vlan 10", none,
        none, none, none⟩ ⟨true, false, true⟩).trace ∧
      ((deployCore ⟨none, none, none, none, "+vlan 10", none, none, none,
        none⟩ ⟨true, false, true⟩).trace).count Event.closeEv = 1 :=
  ⟨by decide,
    c2_close_called_exactly_once
      ⟨none, none, none, none, "+vlan 10", none, none, none, none⟩
      ⟨true, false, true⟩ (by decide)⟩

/-- Claim C1 counterexample: when open raises ConnectionException the claim
says close is never called on the transport - but napalm_device was already
assigned at line 321, so the finally block at lines 409-412 does call close.
Concretely the attempt performs exactly an open call followed by a close
call, while the terminal branch is the connection-error handler (status
Failed). -/
theorem c1_counterexample :
    Event.closeEv ∈ (deployCore ⟨none, some .connEx, none, none, "+intf",
        none, none, none, none⟩ ⟨false, false, true⟩).trace ∧
      statusOf (deployCore ⟨none, some .connEx, none, none, "+intf", none,
        none, none, none⟩ ⟨false, false, true⟩).outcome = .failedSt := by
  decide

/-- Claim C1 amended: when the driver setup succeeded and open raises
ConnectionException, the status is Failed and no session-level work happens
(no stage, diff, commit or discard call), but close IS attempted exactly once
on the transport handle by the finally block - the guard at line 410 only
checks that the handle exists, not that a session was established. -/
theorem c1_amended (a : Adapter) (r : Request) (hs : a.setupExc = none)
    (ho : a.openExc = some .connEx) :
    statusOf (deployCore a r).outcome = .failedSt ∧
      (deployCore a r).trace = [Event.openEv, Event.closeEv] := by
  obtain ⟨s, o, st, di, dt, dis, c, f, cl⟩ := a
  simp only at hs ho
  subst hs ho
  simp [deployCore, deployBody, handlePart, statusOf]

/-- Claim C1 witness: the amended statement at a concrete adapter whose open
raises ConnectionException. -/
theorem c1_witness :
    statusOf (deployCore ⟨none, some .connEx, none, none, "", none, none,
        none, none⟩ ⟨true, false, false⟩).outcome = .failedSt ∧
      (deployCore ⟨none, some .connEx, none, none, "", none, none, none,
        none⟩ ⟨true, false, false⟩).trace = [Event.openEv, Event.closeEv] :=
  c1_amended ⟨none, some .connEx, none, none, "", none, none, none, none⟩
    ⟨true, false, false⟩ rfl rfl

/-- Under a dry-run request the try block never calls commit: the
commit_config call at line 368 sits in the else branch of the dry_run test at
line 359. -/
theorem commitEv_not_mem_deployBody_of_dryRun (a : Adapter) (r : Request)
    (hd : r.dryRun = true) : Event.commitEv ∉ (deployBody a r).1 := by
  unfold deployBody
  repeat' split
  all_goals simp_all

/-- When compare_config returns empty text the try block never calls commit:
the empty-diff test at line 348 returns at line 356 before any commit
decision. -/
theorem commitEv_not_mem_deployBody_of_diffEmpty (a : Adapter) (r : Request)
    (hdt : a.diffText = "") : Event.commitEv ∉ (deployBody a r).1 := by
  unfold deployBody
  repeat' split
  all_goals simp_all

/-- The close attempt of the finally block is the only close in a deployment
attempt: it happens exactly once whenever napalm_device was assigned, and
never otherwise. -/
theorem closeEv_count_deployCore (a : Adapter) (r : Request) :
    ((deployCore a r).trace).count Event.closeEv
      = if a.setupExc.isNone then 1 else 0 := by
  unfold deployCore
  rw [List.count_append, List.count_append,
    List.count_eq_zero.mpr (closeEv_not_mem_deployBody a r),
    List.count_eq_zero.mpr (closeEv_not_mem_handlePart _ _)]
  cases a.setupExc <;> simp

/-- No terminal branch of _deploy_config maps to the RolledBack status: the
code only logs a rollback claim at line 395 while taking the failure
branch. -/
theorem statusOf_ne_rolledBack (o : Outcome) :
    statusOf o ≠ Status.rolledBackSt := by
  cases o <;> simp [statusOf]

/-- Claim C3 counterexample: dry_run with a non-empty diff where the
discard_config call at line 361 raises.  The exception propagates to the
catch-all handler at line 397 (status Failed), so the attempt does not end in
the dry-run-discarded branch, contradicting the claim that the result status
is always DryRunDiscarded in this situation. -/
theorem c3_counterexample :
    statusOf (deployCore ⟨none, none, none, none, "+vlan 10", some .otherEx,
        none, none, none⟩ ⟨true, false, true⟩).outcome = .failedSt ∧
      statusOf (deployCore ⟨none, none, none, none, "+vlan 10", some .otherEx,
        none, none, none⟩ ⟨true, false, true⟩).outcome ≠ .dryRunDiscardedSt := by
  decide

/-- Claim C3 amended: with dry_run=True, commit is never invoked regardless
of commit_on_success and regardless of any transport failure; when the
attempt reaches a non-empty diff and the discard itself succeeds, the staged
changes are discarded and the outcome is DryRunDiscarded carrying the diff
text (the trace is exactly open, stage, diff, discard, close).  When the
discard raises, the surrounding handlers report Failed instead. -/
theorem c3_amended (a : Adapter) (r : Request) (hd : r.dryRun = true) :
    ((deployCore a r).trace).count Event.commitEv = 0 ∧
      (a.setupExc = none → a.openExc = none → a.stageExc = none →
        a.diffExc = none → a.diffText ≠ "" → a.discardExc = none →
        (deployCore a r).outcome = .dryRunDiscardedOut a.diffText ∧
          (deployCore a r).trace = [Event.openEv, Event.stageEv, Event.diffEv,
            Event.discardEv, Event.closeEv]) := by
  constructor
  · unfold deployCore
    rw [List.count_append, List.count_append,
      List.count_eq_zero.mpr (commitEv_not_mem_deployBody_of_dryRun a r hd),
      List.count_eq_zero.mpr (commitEv_not_mem_handlePart _ _)]
    cases a.setupExc <;> simp
  · intro h1 h2 h3 h4 h5 h6
    simp [deployCore, deployBody, handlePart, h1, h2, h3, h4, h5, h6, hd]

/-- Claim C3 witness: a concrete dry-run attempt over a non-empty diff with a
fully successful transport never commits and ends dry-run-discarded with the
diff text. -/
theorem c3_witness :
    ((deployCore ⟨none, none, none, none, "+ntp server 10.0.0.1", none, none,
        none, none⟩ ⟨true, false, true⟩).trace).count Event.commitEv = 0 ∧
      (deployCore ⟨none, none, none, none, "+ntp server 10.0.0.1", none, none,
        none, none⟩ ⟨true, false, true⟩).outcome
        = .dryRunDiscardedOut "+ntp server 10.0.0.1" ∧
      (deployCore ⟨none, none, none, none, "+ntp server 10.0.0.1", none, none,
        none, none⟩ ⟨true, false, true⟩).trace
        = [Event.openEv, Event.stageEv, Event.diffEv, Event.discardEv,
            Event.closeEv] := by
  have h := c3_amended
    ⟨none, none, none, none, "+ntp server 10.0.0.1", none, none, none, none⟩
    ⟨true, false, true⟩ rfl
  exact ⟨h.1, (h.2 rfl rfl rfl rfl (by decide) rfl).1,
    (h.2 rfl rfl rfl rfl (by decide) rfl).2⟩

/-- Claim C4 counterexample: an empty diff where the discard_config call at
line 355 raises.  The exception reaches the catch-all handler at line 397, so
the attempt ends Failed rather than NoOpNoDiff, contradicting the claim that
the result status is NoOpNoDiff whenever diff returns empty text.  Commit is
still never invoked. -/
theorem c4_counterexample :
    statusOf (deployCore ⟨none, none, none, none, "", some .otherEx, none,
        none, none⟩ ⟨false, false, true⟩).outcome = .failedSt ∧
      statusOf (deployCore ⟨none, none, none, none, "", some .otherEx, none,
        none, none⟩ ⟨false, false, true⟩).outcome ≠ .noOpNoDiffSt ∧
      Event.commitEv ∉ (deployCore ⟨none, none, none, none, "", some .otherEx,
        none, none, none⟩ ⟨false, false, true⟩).trace := by
  decide

/-- Claim C4 amended: when compare_config returns empty text, commit is never
invoked under any flags or failures; once open, stage and diff have
succeeded, discard is attempted and close is attempted exactly once; when the
discard succeeds the outcome is NoOpNoDiff (trace exactly open, stage, diff,
discard, close), and when the discard raises the attempt is reported Failed
by the surrounding handlers. -/
theorem c4_amended (a : Adapter) (r : Request) (hdt : a.diffText = "") :
    ((deployCore a r).trace).count Event.commitEv = 0 ∧
      (a.setupExc = none → a.openExc = none → a.stageExc = none →
        a.diffExc = none →
        Event.discardEv ∈ (deployCore a r).trace ∧
          ((deployCore a r).trace).count Event.closeEv = 1 ∧
          (a.discardExc = none →
            (deployCore a r).outcome = .noopNoDiff ∧
              (deployCore a r).trace = [Event.openEv, Event.stageEv,
                Event.diffEv, Event.discardEv, Event.closeEv]) ∧
          (∀ e : Exc, a.discardExc = some e →
            statusOf (deployCore a r).outcome = .failedSt)) := by
  constructor
  · unfold deployCore
    rw [List.count_append, List.count_append,
      List.count_eq_zero.mpr (commitEv_not_mem_deployBody_of_diffEmpty a r hdt),
      List.count_eq_zero.mpr (commitEv_not_mem_handlePart _ _)]
    cases a.setupExc <;> simp
  · intro h1 h2 h3 h4
    refine ⟨?_, ?_, ?_, ?_⟩
    · rcases hdis : a.discardExc with _ | e
      · simp [deployCore, deployBody, handlePart, h1, h2, h3, h4, hdt, hdis]
      · cases e <;>
          simp [deployCore, deployBody, handlePart, h1, h2, h3, h4, hdt, hdis]
    · rw [closeEv_count_deployCore]
      simp [h1]
    · intro hdis
      constructor <;>
        simp [deployCore, deployBody, handlePart, h1, h2, h3, h4, hdt, hdis]
    · intro e hdis
      cases e <;>
        simp [deployCore, deployBody, handlePart, statusOf, h1, h2, h3, h4,
          hdt, hdis]

/-- Claim C4 witness: a concrete live-mode request with commit enabled whose
diff comes back empty short-circuits into NoOpNoDiff without ever
committing. -/
theorem c4_witness :
    ((deployCore ⟨none, none, none, none, "", none, none, none, none⟩
        ⟨false, false, true⟩).trace).count Event.commitEv = 0 ∧
      Event.discardEv ∈ (deployCore ⟨none, none, none, none, "", none, none,
        none, none⟩ ⟨false, false, true⟩).trace ∧
      ((deployCore ⟨none, none, none, none, "", none, none, none, none⟩
        ⟨false, false, true⟩).trace).count Event.closeEv = 1 ∧
      (deployCore ⟨none, none, none, none, "", none, none, none, none⟩
        ⟨false, false, true⟩).outcome = .noopNoDiff := by
  have h := c4_amended ⟨none, none, none, none, "", none, none, none, none⟩
    ⟨false, false, true⟩ rfl
  exact ⟨h.1, (h.2 rfl rfl rfl rfl).1, (h.2 rfl rfl rfl rfl).2.1,
    ((h.2 rfl rfl rfl rfl).2.2.1 rfl).1⟩

/-- Claim C5 counterexample: commit succeeds but the post-commit get_facts
call at line 375 raises; the attempt falls into the catch-all handler and is
reported Failed even though commit was invoked once and succeeded,
contradicting the claim that a successful commit yields status Committed. -/
theorem c5_counterexample :
    ((deployCore ⟨none, none, none, none, "+snmp", none, none, some .otherEx,
        none⟩ ⟨false, false, true⟩).trace).count Event.commitEv = 1 ∧
      statusOf (deployCore ⟨none, none, none, none, "+snmp", none, none,
        some .otherEx, none⟩ ⟨false, false, true⟩).outcome = .failedSt ∧
      statusOf (deployCore ⟨none, none, none, none, "+snmp", none, none,
        some .otherEx, none⟩ ⟨false, false, true⟩).outcome ≠ .committedSt := by
  decide

/-- Claim C5 amended: with dry_run=False, commit_on_success=True and a
non-empty diff, commit is invoked exactly once; the status is never
RolledBack; when commit and the subsequent facts call both succeed the
outcome is Committed with the diff text; when commit raises (any failure
kind, including vendor replace-config errors) the status is Failed; a facts
failure after a successful commit also yields Failed. -/
theorem c5_amended (a : Adapter) (r : Request) (hdry : r.dryRun = false)
    (hcc : r.commitChanges = true) (h1 : a.setupExc = none)
    (h2 : a.openExc = none) (h3 : a.stageExc = none) (h4 : a.diffExc = none)
    (hdt : a.diffText ≠ "") :
    ((deployCore a r).trace).count Event.commitEv = 1 ∧
      statusOf (deployCore a r).outcome ≠ .rolledBackSt ∧
      (a.commitExc = none → a.factsExc = none →
        (deployCore a r).outcome = .committedOut a.diffText ∧
          (deployCore a r).trace = [Event.openEv, Event.stageEv, Event.diffEv,
            Event.commitEv, Event.factsEv, Event.closeEv]) ∧
      (∀ e : Exc, a.commitExc = some e →
        statusOf (deployCore a r).outcome = .failedSt) := by
  refine ⟨?_, statusOf_ne_rolledBack _, ?_, ?_⟩
  · rcases hc : a.commitExc with _ | e
    · rcases hf : a.factsExc with _ | e'
      · simp [deployCore, deployBody, handlePart, h1, h2, h3, h4, hdt, hdry,
          hcc, hc, hf]
      · cases e' <;>
          simp [deployCore, deployBody, handlePart, h1, h2, h3, h4, hdt, hdry,
            hcc, hc, hf]
    · cases e <;>
        simp [deployCore, deployBody, handlePart, h1, h2, h3, h4, hdt, hdry,
          hcc, hc]
  · intro hc hf
    simp [deployCore, deployBody, handlePart, h1, h2, h3, h4, hdt, hdry, hcc,
      hc, hf]
  · intro e hc
    cases e <;>
      simp [deployCore, deployBody, handlePart, statusOf, h1, h2, h3, h4, hdt,
        hdry, hcc, hc]

/-- Claim C5 witness: a concrete live commit with a working transport commits
exactly once and ends Committed; instantiating the failure conjunct is
covered by the amended theorem's hypotheses being discharged at this
input. -/
theorem c5_witness :
    ((deployCore ⟨none, none, none, none, "+logging host 10.9.9.9", none,
        none, none, none⟩ ⟨false, false, true⟩).trace).count Event.commitEv
        = 1 ∧
      (deployCore ⟨none, none, none, none, "+logging host 10.9.9.9", none,
        none, none, none⟩ ⟨false, false, true⟩).outcome
        = .committedOut "+logging host 10.9.9.9" ∧
      (deployCore ⟨none, none, none, none, "+logging host 10.9.9.9", none,
        none, none, none⟩ ⟨false, false, true⟩).trace
        = [Event.openEv, Event.stageEv, Event.diffEv, Event.commitEv,
            Event.factsEv, Event.closeEv] := by
  have h := c5_amended
    ⟨none, none, none, none, "+logging host 10.9.9.9", none, none, none, none⟩
    ⟨false, false, true⟩ rfl rfl rfl rfl rfl rfl (by decide)
  exact ⟨h.1, (h.2.2.1 rfl rfl).1, (h.2.2.1 rfl rfl).2⟩

/-- Claim C6 counterexample: get_facts raises after a successful commit.  The
catch-all handler at line 397 logs an error (not a warning), attempts a
discard even though the commit already succeeded (its guard at line 401 only
checks that napalm_device is set), and the attempt is reported Failed rather
than Committed - contradicting every part of the claim. -/
theorem c6_counterexample :
    Event.commitEv ∈ (deployCore ⟨none, none, none, none, "+hostname r2",
        none, none, some .otherEx, none⟩ ⟨false, false, true⟩).trace ∧
      statusOf (deployCore ⟨none, none, none, none, "+hostname r2", none,
        none, some .otherEx, none⟩ ⟨false, false, true⟩).outcome = .failedSt ∧
      Event.discardEv ∈ (deployCore ⟨none, none, none, none, "+hostname r2",
        none, none, some .otherEx, none⟩ ⟨false, false, true⟩).trace := by
  decide

/-- Claim C6 amended: when the post-commit facts call raises an unexpected
exception after a successful commit, the failure is fatal to the reported
outcome: the catch-all handler reports Failed, and a best-effort discard IS
attempted after the successful commit, because the handler's guard only
checks that the transport handle exists.  Close is still attempted exactly
once (the trace is exactly open, stage, diff, commit, facts, discard,
close). -/
theorem c6_amended (a : Adapter) (r : Request) (hdry : r.dryRun = false)
    (hcc : r.commitChanges = true) (h1 : a.setupExc = none)
    (h2 : a.openExc = none) (h3 : a.stageExc = none) (h4 : a.diffExc = none)
    (hdt : a.diffText ≠ "") (hc : a.commitExc = none)
    (hf : a.factsExc = some .otherEx) :
    statusOf (deployCore a r).outcome = .failedSt ∧
      (deployCore a r).trace = [Event.openEv, Event.stageEv, Event.diffEv,
        Event.commitEv, Event.factsEv, Event.discardEv, Event.closeEv] := by
  simp [deployCore, deployBody, handlePart, statusOf, h1, h2, h3, h4, hdt,
    hdry, hcc, hc, hf]

/-- Claim C6 witness: the amended statement at a concrete adapter whose facts
call raises after a successful commit. -/
theorem c6_witness :
    statusOf (deployCore ⟨none, none, none, none, "+interface Vlan20", none,
        none, some .otherEx, none⟩ ⟨false, false, true⟩).outcome = .failedSt ∧
      (deployCore ⟨none, none, none, none, "+interface Vlan20", none, none,
        some .otherEx, none⟩ ⟨false, false, true⟩).trace
        = [Event.openEv, Event.stageEv, Event.diffEv, Event.commitEv,
            Event.factsEv, Event.discardEv, Event.closeEv] :=
  c6_amended
    ⟨none, none, none, none, "+interface Vlan20", none, none, some .otherEx,
      none⟩ ⟨false, false, true⟩ rfl rfl rfl rfl rfl rfl (by decide) rfl rfl

/-- Claim C7 counterexample: two dry-run attempts identical except for the
discard behaviour.  With a working discard the attempt ends DryRunDiscarded;
with a raising discard it ends Failed - the discard failure escalated out of
the dry-run branch into the catch-all handler and changed the reported
status, contradicting the claim. -/
theorem c7_counterexample :
    statusOf (deployCore ⟨none, none, none, none, "+banner", none, none, none,
        none⟩ ⟨true, false, false⟩).outcome = .dryRunDiscardedSt ∧
      statusOf (deployCore ⟨none, none, none, none, "+banner", some .otherEx,
        none, none, none⟩ ⟨true, false, false⟩).outcome = .failedSt := by
  decide

/-- Claim C7 amended: a failure of a discard call made in the main flow (the
empty-diff, dry-run, or commit-disabled branch) is NOT contained locally:
none of those call sites is wrapped in its own handler, so the exception
propagates to the except clauses, the attempt's status becomes Failed, and
the failure is logged as an error rather than a warning.  Close is still
attempted exactly once.  Only the nested discard inside the catch-all
handler (line 404) has its own failure swallowed. -/
theorem c7_amended (a : Adapter) (r : Request) (h1 : a.setupExc = none)
    (h2 : a.openExc = none) (h3 : a.stageExc = none) (h4 : a.diffExc = none)
    (e : Exc) (hdis : a.discardExc = some e)
    (hbr : a.diffText = "" ∨ r.dryRun = true ∨ r.commitChanges = false) :
    statusOf (deployCore a r).outcome = .failedSt ∧
      ((deployCore a r).trace).count Event.closeEv = 1 := by
  constructor
  · obtain ⟨dr, rm, cc⟩ := r
    cases dr <;> cases cc <;> cases e <;> by_cases hdt : a.diffText = "" <;>
      simp_all [deployCore, deployBody, handlePart, statusOf]
  · rw [closeEv_count_deployCore]
    simp [h1]

/-- Claim C7 witness: the amended statement at a concrete attempt whose
empty-diff discard raises. -/
theorem c7_witness :
    statusOf (deployCore ⟨none, none, none, none, "", some .connEx, none,
        none, none⟩ ⟨false, false, false⟩).outcome = .failedSt ∧
      ((deployCore ⟨none, none, none, none, "", some .connEx, none, none,
        none⟩ ⟨false, false, false⟩).trace).count Event.closeEv = 1 :=
  c7_amended ⟨none, none, none, none, "", some .connEx, none, none, none⟩
    ⟨false, false, false⟩ rfl rfl rfl rfl .connEx rfl (Or.inl rfl)

/-- Claim C8: when a secrets group is configured and the store returns a
non-empty username but raises for the password field, _get_credentials keeps
the username from the store, falls back to the default password admin, and
tags the pair as coming from the secret store (one field from the store
suffices for the tag computed at line 189). -/
theorem c8_partial_secret_store (s : SecretsSetup) (u : String)
    (hg : s.hasGroup = true) (hu : s.userFetch = .value u) (hne : u ≠ "")
    (hp : s.passFetch = .raises) :
    getCredentials s
      = { username := u, password := "admin", fromSecretStore := true } := by
  simp [getCredentials, fetchField, hg, hu, hne, hp]

/-- Claim C8 witness: a concrete store returning the username alice and
raising for the password. -/
theorem c8_witness :
    getCredentials ⟨true, .value "alice", .raises⟩
      = { username := "alice", password := "admin", fromSecretStore := true } :=
  c8_partial_secret_store ⟨true, .value "alice", .raises⟩ "alice" rfl rfl
    (by decide) rfl

/-- Claim C9 counterexample: an empty candidate configuration.  The run
method stops at lines 87-89 with logger.error about the missing intended
configuration before _deploy_config is ever reached (no transport call is
made), so the first half of the claim holds; but the branch taken is the
error surface, not a no-op NoChangeRequested outcome - no branch of the code
produces such a status. -/
theorem c9_counterexample :
    runJob ⟨true, true, true, ⟨false, .raises, .raises⟩, false⟩ (some "")
        ⟨none, none, none, none, "+x", none, none, none, none⟩
        ⟨true, false, true⟩
      = { status := .configUnavailableError, transportTrace := [] } ∧
      RunStatus.configUnavailableError ≠ RunStatus.noChangeRequested := by
  decide

/-- Claim C9 amended: when the candidate configuration is unavailable (None)
or empty, the attempt performs no transport call at all (the machine never
reaches Connecting); when the device passed validation the run ends in the
distinct error branch of lines 87-89 (the ConfigUnavailable surface), not in
a NoChangeRequested no-op. -/
theorem c9_amended (d : DeviceModel) (cfg : Option String) (a : Adapter)
    (r : Request) (hcfg : configFalsy cfg = true) :
    (runJob d cfg a r).transportTrace = [] ∧
      (validateDevice d = true →
        (runJob d cfg a r).status = .configUnavailableError ∧
          (runJob d cfg a r).status ≠ .noChangeRequested) := by
  constructor
  · by_cases hv : validateDevice d = true <;> simp [runJob, hv, hcfg]
  · intro hv
    simp [runJob, hv, hcfg]

/-- Claim C9 witness: the amended statement at a concrete device with no
Golden Config intended configuration at all. -/
theorem c9_witness :
    (runJob ⟨true, true, true, ⟨false, .raises, .raises⟩, false⟩ none
        ⟨none, none, none, none, "+y", none, none, none, none⟩
        ⟨false, false, true⟩).transportTrace = [] ∧
      (runJob ⟨true, true, true, ⟨false, .raises, .raises⟩, false⟩ none
        ⟨none, none, none, none, "+y", none, none, none, none⟩
        ⟨false, false, true⟩).status = .configUnavailableError := by
  have h := c9_amended ⟨true, true, true, ⟨false, .raises, .raises⟩, false⟩
    none ⟨none, none, none, none, "+y", none, none, none, none⟩
    ⟨false, false, true⟩ rfl
  exact ⟨h.1, (h.2 rfl).1⟩

/-- Claim C10 counterexample: the parsing of platform.napalm_args at lines
312-315 (json.loads when the stored value is a string) runs before the try
block of _deploy_config, so when it raises the exception escapes to run and
the final provisioning-completed success message is never emitted - the run
ends in the raised-to-caller branch, contradicting the claim that the
deployment routine never raises for any input. -/
theorem c10_counterexample :
    runJob ⟨true, true, true, ⟨false, .raises, .raises⟩, true⟩
        (some "hostname r1")
        ⟨none, none, none, none, "+x", none, none, none, none⟩
        ⟨false, false, true⟩
      = { status := .raisedToCaller .otherEx, transportTrace := [] } ∧
      RunStatus.raisedToCaller .otherEx ≠ RunStatus.completed := by
  decide

/-- Claim C10 amended: for every input on which the napalm optional-args
value parses (the only code of _deploy_config outside the try block), the
deployment routine never raises to its caller: all transport errors of every
kind at every stage are consumed by the except clauses, and run always
proceeds to its final provisioning-completed success message regardless of
how the deployment attempt ended. -/
theorem c10_amended (d : DeviceModel) (cfg : Option String) (a : Adapter)
    (r : Request) (hv : validateDevice d = true)
    (hcfg : configFalsy cfg = false) (hm : d.napalmArgsMalformed = false) :
    (runJob d cfg a r).status = .completed ∧
      (runJob d cfg a r).transportTrace = (deployCore a r).trace := by
  simp [runJob, deployConfig, hv, hcfg, hm]

/-- Claim C10 witness: a deployment whose commit fails still lets run finish
with its success message. -/
theorem c10_witness :
    (runJob ⟨true, true, true, ⟨false, .raises, .raises⟩, false⟩
        (some "interface Vlan30")
        ⟨none, none, none, none, "+mtu 9000", none, some .commitEx, none,
          none⟩ ⟨false, false, true⟩).status = .completed ∧
      (runJob ⟨true, true, true, ⟨false, .raises, .raises⟩, false⟩
        (some "interface Vlan30")
        ⟨none, none, none, none, "+mtu 9000", none, some .commitEx, none,
          none⟩ ⟨false, false, true⟩).transportTrace
        = (deployCore ⟨none, none, none, none, "+mtu 9000", none,
            some .commitEx, none, none⟩ ⟨false, false, true⟩).trace :=
  c10_amended ⟨true, true, true, ⟨false, .raises, .raises⟩, false⟩
    (some "interface Vlan30")
    ⟨none, none, none, none, "+mtu 9000", none, some .commitEx, none, none⟩
    ⟨false, false, true⟩ rfl (by decide) rfl

end ProvisionJob
